import Mathlib

/-!
Verification of the Vapi lead-nurture webhook server (`src/SRC/index.ts`).

The program is a single Express endpoint `POST /api/vapi/webhook` together
with a response-generation function `generateAIResponse`.  We embed the
request handler and the generator as pure Lean functions.  The external
chat-completion provider is a parameter: a function from the API key used
and the request sent to either a completion object (resolved promise) or
an error (rejected promise).  Alongside the reply string, the embedding
returns the list of provider calls performed, so that claims about the
number and content of outbound calls are statable.
-/

namespace VapiAgent

/-- JSON values, the shape of webhook request bodies (`req.body`). -/
inductive Json where
  | null : Json
  | bool (b : Bool) : Json
  | str (s : String) : Json
  | num (n : Int) : Json
  | arr (elems : List Json) : Json
  | obj (fields : List (String × Json)) : Json

/-- Property access `j.k` / `j?.k` on a JSON value: on an object, the value
bound to the key (the last binding, matching `JSON.parse` duplicate-key
semantics); `none` (JavaScript `undefined`) on every other shape. -/
def Json.getField (j : Json) (k : String) : Option Json :=
  match j with
  | .obj fields => ((fields.reverse).find? (fun p => p.1 == k)).map (fun p => p.2)
  | _ => none

/-- Extract a JavaScript string from a JSON value; `none` for non-strings. -/
def Json.getStr? : Json → Option String
  | .str s => some s
  | _ => none

/-- `req.body.message?.type` when it is a string (line 38 compares it with
the string sentinel via strict equality, so non-string values behave like
absent ones). -/
def messageType (body : Json) : Option String :=
  (body.getField "message").bind (fun m => (m.getField "type").bind Json.getStr?)

/-- `message.transcript || ''` (line 39): the transcript string when present
and non-empty, the empty string otherwise.  The declared type of
`userMessage` is `string`, so non-string transcript values are outside the
interface and map to the default. -/
def messageTranscript (body : Json) : String :=
  match (body.getField "message").bind (fun m => m.getField "transcript") with
  | some (.str s) => s
  | _ => ""

/-- One role-tagged message of the chat-completion request (lines 71-100). -/
structure ChatMessage where
  role : String
  content : String
deriving DecidableEq

/-- The argument of `openai.chat.completions.create` (lines 69-103). -/
structure ChatRequest where
  model : String
  messages : List ChatMessage
  temperature : Rat
  max_tokens : Nat
deriving DecidableEq

/-- `message` member of a completion choice; `content` may be null/absent. -/
structure CompletionMessage where
  content : Option String

/-- One element of `completion.choices`; `message` may be absent. -/
structure CompletionChoice where
  message : Option CompletionMessage

/-- The provider's completion response; `choices` may be absent. -/
structure Completion where
  choices : Option (List CompletionChoice)

/-- The process environment, `process.env`: absent variables are `none`. -/
abbrev Env := String → Option String

/-- The external chat-completion provider, abstracted: given the API key the
client was constructed with and the request, the call either resolves to a
`Completion` or rejects with an error. -/
abbrev Provider := Option String → ChatRequest → Except String Completion

/-- A record of one outbound provider call: the credential used and the
request sent. -/
structure ProviderCall where
  apiKey : Option String
  request : ChatRequest

/-- The fixed greeting returned on empty input (lines 61-63). -/
def greetingString : String :=
  "Hello! Thanks for calling. I'm here to share how we partner with business owners like yourself to unlock new growth opportunities. To start, I'd love to learn about your business. What industry are you in?"

/-- The fixed system-role instruction (lines 74-94 of the source). -/
def systemPrompt : String :=
  "You are a knowledgeable business advisor helping business owners explore growth and partnership opportunities.\n\nYour personality:\n- Warm and professional, like a trusted consultant\n- Curious about their business\n- Helpful and educational, not pushy\n- Ask thoughtful follow-up questions\n\nGuidelines:\n- Keep responses brief (2-3 sentences) since this is a phone call\n- Ask ONE question at a time\n- Listen and acknowledge what they share\n- Share relevant insights when appropriate\n- Help them understand if this could be a good fit\n\nTopics to explore naturally:\n- Their industry and business model\n- Current challenges or goals\n- Business size and growth stage  \n- Their vision for the future\n- What would make them consider a partnership"

/-- The fixed fallback when the completion content is null/absent (line 107). -/
def fallbackString : String :=
  "I'm here to help. Could you tell me more about your business?"

/-- The fixed apology returned when the provider call fails (line 111). -/
def apologyString : String :=
  "I apologize, I'm having a brief technical issue. Could you repeat that?"

/-- The name of the credential environment variable (line 67). -/
def apiKeyVar : String := "OPENAI_API_KEY"

/-- The request built for a non-empty user message (lines 69-103): model
`gpt-4`, a fixed system message and the single user turn, temperature 0.7,
max_tokens 150. -/
def chatRequest (userMessage : String) : ChatRequest :=
  { model := "gpt-4"
  , messages :=
      [ { role := "system", content := systemPrompt }
      , { role := "user", content := userMessage } ]
  , temperature := 0.7
  , max_tokens := 150 }

/-- `completion?.choices?.[0]?.message?.content` (line 106): optional
chaining through choices, first element, message and content. -/
def extractContent (c : Completion) : Option String :=
  match c.choices with
  | none => none
  | some cs =>
    match cs.head? with
    | none => none
    | some choice =>
      match choice.message with
      | none => none
      | some m => m.content

/-- `generateAIResponse` (lines 59-113), instrumented: returns the reply
string together with the list of provider calls made.  On empty input the
greeting is returned and no call happens.  Otherwise the API key is read
from the environment at call time (line 67), the fixed request is sent,
and the result is the extracted content, the fallback when that content is
null/absent, or the apology when the call rejects (the rejection is caught,
never re-raised). -/
def generateAIResponseT (provider : Provider) (env : Env) (userMessage : String) :
    String × List ProviderCall :=
  if userMessage = "" then
    (greetingString, [])
  else
    let apiKey := env apiKeyVar
    let req := chatRequest userMessage
    match provider apiKey req with
    | .ok completion => ((extractContent completion).getD fallbackString, [⟨apiKey, req⟩])
    | .error _ => (apologyString, [⟨apiKey, req⟩])

/-- The reply string of `generateAIResponse` (lines 59-113). -/
def generateAIResponse (provider : Provider) (env : Env) (userMessage : String) : String :=
  (generateAIResponseT provider env userMessage).1

/-- An HTTP response produced by the endpoint: status code and JSON body. -/
structure HttpResponse where
  status : Nat
  body : Json

/-- The acknowledgment body `{ received: true }` (line 50). -/
def ackBody : Json := .obj [("received", .bool true)]

/-- The reply body `{ response }` (line 46). -/
def replyBody (s : String) : Json := .obj [("response", .str s)]

/-- The error body `{ error: 'Internal server error' }` (line 54). -/
def errorBody : Json := .obj [("error", .str "Internal server error")]

/-- The 500 response of the catch block (lines 52-55). -/
def error500 : HttpResponse := { status := 500, body := errorBody }

/-- The body of the `try` block of the webhook handler (lines 31-50): on an
assistant-request event, reply with the generated response; otherwise
acknowledge.  Returns the response together with the provider calls made. -/
def webhookCore (provider : Provider) (env : Env) (body : Json) :
    HttpResponse × List ProviderCall :=
  if messageType body = some "assistant-request" then
    let userMessage := messageTranscript body
    let (response, calls) := generateAIResponseT provider env userMessage
    ({ status := 200, body := replyBody response }, calls)
  else
    ({ status := 200, body := ackBody }, [])

/-- The `try`/`catch` of the endpoint (lines 31-55): a completed attempt is
returned as-is, a raised exception becomes the fixed 500 response. -/
def webhookTryCatch (attempt : Except String HttpResponse) : HttpResponse :=
  match attempt with
  | .ok r => r
  | .error _ => error500

/-- The full `POST /api/vapi/webhook` handler (lines 30-56).  `fault` models
an exception raised during handling outside the generator's internal catch
(`some e` carries the error value); `none` is the normal, non-throwing
execution. -/
def webhookHandler (provider : Provider) (env : Env) (body : Json)
    (fault : Option String) : HttpResponse :=
  webhookTryCatch
    (match fault with
     | some e => .error e
     | none => .ok (webhookCore provider env body).1)

/-- A batch of independent webhook requests, each with its own provider
behavior, environment and body, processed in order by the handler. -/
def processRequests (reqs : List (Provider × Env × Json)) : List HttpResponse :=
  reqs.map (fun r => webhookHandler r.1 r.2.1 r.2.2 none)

/-- C1: on empty input `generateAIResponse` returns the fixed greeting and
makes no provider call, and an assistant-request event whose transcript is
empty or absent yields the response `{ response: greeting }` with no
provider call. -/
theorem empty_input_greeting_no_call (provider : Provider) (env : Env) (body : Json)
    (htype : messageType body = some "assistant-request")
    (htr : messageTranscript body = "") :
    generateAIResponseT provider env "" = (greetingString, []) ∧
    webhookCore provider env body = ({ status := 200, body := replyBody greetingString }, []) := by
  refine ⟨rfl, ?_⟩
  simp [webhookCore, htype, htr, generateAIResponseT]

/-- Witness for C1 at an assistant-request body with no transcript field. -/
theorem empty_input_greeting_no_call_witness :
    generateAIResponseT (fun _ _ => .error "net") (fun _ => none) "" = (greetingString, []) ∧
    webhookCore (fun _ _ => .error "net") (fun _ => none)
      (Json.obj [("message", Json.obj [("type", Json.str "assistant-request")])]) =
      ({ status := 200, body := replyBody greetingString }, []) :=
  empty_input_greeting_no_call _ _ _ (by decide) (by decide)

/-- C2: on an assistant-request event with non-empty transcript, when the
provider resolves with a completion whose first choice content is `s`, the
response body is `{ response: s }` — the content passes through unmodified. -/
theorem nonempty_transcript_passthrough (provider : Provider) (env : Env) (body : Json)
    (c : Completion) (s : String)
    (htype : messageType body = some "assistant-request")
    (htr : messageTranscript body ≠ "")
    (hp : provider (env apiKeyVar) (chatRequest (messageTranscript body)) = .ok c)
    (hc : extractContent c = some s) :
    (webhookCore provider env body).1 = { status := 200, body := replyBody s } := by
  simp [webhookCore, htype, generateAIResponseT, htr, hp, hc]

/-- Witness for C2 with transcript `hi` and a provider returning content `X`. -/
theorem nonempty_transcript_passthrough_witness :
    (webhookCore (fun _ _ => .ok ⟨some [⟨some ⟨some "X"⟩⟩]⟩) (fun _ => none)
      (Json.obj [("message", Json.obj
        [("type", Json.str "assistant-request"), ("transcript", Json.str "hi")])])).1 =
      { status := 200, body := replyBody "X" } :=
  nonempty_transcript_passthrough _ _ _ ⟨some [⟨some ⟨some "X"⟩⟩]⟩ "X"
    (by decide) (by decide) rfl rfl

/-- C3: when the provider call rejects, `generateAIResponse` returns the
fixed apology (the exception is absorbed, never propagated), and the
assistant-request webhook response is HTTP 200 with `{ response: apology }`,
not a 500. -/
theorem provider_failure_apology (provider : Provider) (env : Env) (body : Json) (e : String)
    (htype : messageType body = some "assistant-request")
    (htr : messageTranscript body ≠ "")
    (hp : provider (env apiKeyVar) (chatRequest (messageTranscript body)) = .error e) :
    generateAIResponse provider env (messageTranscript body) = apologyString ∧
    webhookHandler provider env body none = { status := 200, body := replyBody apologyString } := by
  constructor
  · simp [generateAIResponse, generateAIResponseT, htr, hp]
  · simp [webhookHandler, webhookTryCatch, webhookCore, htype, generateAIResponseT, htr, hp]

/-- Witness for C3 with transcript `hi` and a rejecting provider. -/
theorem provider_failure_apology_witness :
    generateAIResponse (fun _ _ => .error "ECONNREFUSED") (fun _ => none)
      (messageTranscript (Json.obj [("message", Json.obj
        [("type", Json.str "assistant-request"), ("transcript", Json.str "hi")])])) =
      apologyString ∧
    webhookHandler (fun _ _ => .error "ECONNREFUSED") (fun _ => none)
      (Json.obj [("message", Json.obj
        [("type", Json.str "assistant-request"), ("transcript", Json.str "hi")])]) none =
      { status := 200, body := replyBody apologyString } :=
  provider_failure_apology _ _ _ "ECONNREFUSED" (by decide) (by decide) rfl

/-- C4: on an assistant-request event with non-empty transcript, when the
provider resolves but the first choice content is absent or null, the
response body is `{ response: fallback }`. -/
theorem null_content_fallback (provider : Provider) (env : Env) (body : Json) (c : Completion)
    (htype : messageType body = some "assistant-request")
    (htr : messageTranscript body ≠ "")
    (hp : provider (env apiKeyVar) (chatRequest (messageTranscript body)) = .ok c)
    (hc : extractContent c = none) :
    (webhookCore provider env body).1 = { status := 200, body := replyBody fallbackString } := by
  simp [webhookCore, htype, generateAIResponseT, htr, hp, hc]

/-- Witness for C4 with a provider whose first choice has null content. -/
theorem null_content_fallback_witness :
    (webhookCore (fun _ _ => .ok ⟨some [⟨some ⟨none⟩⟩]⟩) (fun _ => none)
      (Json.obj [("message", Json.obj
        [("type", Json.str "assistant-request"), ("transcript", Json.str "hi")])])).1 =
      { status := 200, body := replyBody fallbackString } :=
  null_content_fallback _ _ _ ⟨some [⟨some ⟨none⟩⟩]⟩ (by decide) (by decide) rfl rfl

/-- C5: any request whose `message.type` is not the assistant-request
sentinel (including absent `message` or `message.type`) is answered with
exactly `{ received: true }` at status 200, and no provider call is made. -/
theorem other_type_acknowledged (provider : Provider) (env : Env) (body : Json)
    (h : messageType body ≠ some "assistant-request") :
    webhookCore provider env body = ({ status := 200, body := ackBody }, []) := by
  simp [webhookCore, h]

/-- Witness for C5 at a body with a different event type. -/
theorem other_type_acknowledged_witness :
    webhookCore (fun _ _ => .error "net") (fun _ => none)
      (Json.obj [("message", Json.obj [("type", Json.str "end-of-call-report")])]) =
      ({ status := 200, body := ackBody }, []) :=
  other_type_acknowledged _ _ _ (by decide)

/-- C6: an exception raised during handling outside the generator's internal
catch is converted by the endpoint catch into the fixed 500 response
`{ error: 'Internal server error' }`, whatever the error value was. -/
theorem endpoint_catch_500 (provider : Provider) (env : Env) (body : Json) (e : String) :
    webhookHandler provider env body (some e) = error500 ∧
    error500 = { status := 500, body := Json.obj [("error", Json.str "Internal server error")] } :=
  ⟨rfl, rfl⟩

/-- C7: for non-empty input the generator makes exactly one provider call,
whose request has model `gpt-4`, exactly the fixed system message and the
single user turn carrying the utterance, temperature 0.7 and max_tokens
150. -/
theorem request_shape (provider : Provider) (env : Env) (u : String) (h : u ≠ "") :
    (generateAIResponseT provider env u).2 =
      [ { apiKey := env apiKeyVar
        , request :=
          { model := "gpt-4"
          , messages :=
              [ { role := "system", content := systemPrompt }
              , { role := "user", content := u } ]
          , temperature := 0.7
          , max_tokens := 150 } } ] := by
  cases hp : provider (env apiKeyVar) (chatRequest u) <;>
    · simp only [generateAIResponseT, if_neg h]
      rw [hp]
      simp [chatRequest]

/-- Witness for C7 at the utterance `hi`. -/
theorem request_shape_witness :
    (generateAIResponseT (fun _ _ => .error "net") (fun _ => some "sk-test") "hi").2 =
      [ { apiKey := (fun _ => some "sk-test" : Env) apiKeyVar
        , request :=
          { model := "gpt-4"
          , messages :=
              [ { role := "system", content := systemPrompt }
              , { role := "user", content := "hi" } ]
          , temperature := 0.7
          , max_tokens := 150 } } ] :=
  request_shape _ _ "hi" (by decide)

/-- C8 counterexample: the claim says no per-request read of the ambient
environment determines the credential used, i.e. the key passed to the
provider is independent of the environment at call time.  False: line 67
reads `process.env.OPENAI_API_KEY` inside `generateAIResponse`, so two
calls under different ambient environments use different credentials. -/
theorem credential_ambient_read_counterexample :
    ¬ (∀ (env1 env2 : Env) (provider : Provider) (u : String), u ≠ "" →
        (generateAIResponseT provider env1 u).2.map (fun call => call.apiKey) =
        (generateAIResponseT provider env2 u).2.map (fun call => call.apiKey)) := by
  intro h
  have h2 := h (fun _ => some "key-at-startup") (fun _ => some "key-mutated-later")
    (fun _ _ => .error "net") "hi" (by decide)
  have h3 : (some "key-mutated-later" : Option String) = some "key-at-startup" := by
    simpa [generateAIResponseT] using h2.symm
  exact absurd h3 (by decide)

/-- C8 amended: the credential is read from the ambient environment on each
call to the generator (at client construction, line 67); every provider
call uses the value of `OPENAI_API_KEY` in the environment at call time,
not a value captured once at startup. -/
theorem credential_read_per_call (provider : Provider) (env : Env) (u : String)
    (h : u ≠ "") :
    (generateAIResponseT provider env u).2.map (fun call => call.apiKey) = [env apiKeyVar] := by
  cases hp : provider (env apiKeyVar) (chatRequest u) <;>
    · simp only [generateAIResponseT, if_neg h]
      rw [hp]
      rfl

/-- Witness for the amended C8 at a concrete environment. -/
theorem credential_read_per_call_witness :
    (generateAIResponseT (fun _ _ => .error "net") (fun _ => some "sk-live") "hi").2.map
      (fun call => call.apiKey) = [(fun _ => some "sk-live" : Env) apiKeyVar] :=
  credential_read_per_call _ _ "hi" (by decide)

/-- C9: every request produces exactly one response (the handler is a total
function into `HttpResponse`), and that response has one of exactly three
shapes: the error object, the acknowledgment `{ received: true }`, or a
reply `{ response: s }`. -/
theorem one_response_three_shapes (provider : Provider) (env : Env) (body : Json)
    (fault : Option String) :
    webhookHandler provider env body fault = error500 ∨
    webhookHandler provider env body fault = { status := 200, body := ackBody } ∨
    ∃ s, webhookHandler provider env body fault = { status := 200, body := replyBody s } := by
  cases fault with
  | some e => exact Or.inl rfl
  | none =>
    by_cases h : messageType body = some "assistant-request"
    · rcases hg : generateAIResponseT provider env (messageTranscript body) with ⟨r, calls⟩
      refine Or.inr (Or.inr ⟨r, ?_⟩)
      simp [webhookHandler, webhookTryCatch, webhookCore, h, hg]
    · exact Or.inr (Or.inl (by simp [webhookHandler, webhookTryCatch, webhookCore, h]))

/-- C10: the handler is deterministic in the request body and provider
behavior: in any two batches of requests that agree at position `i`, the
responses at position `i` are identical, whatever the surrounding traffic
was — no state carried across requests influences the output. -/
theorem handler_deterministic (rs1 rs2 : List (Provider × Env × Json)) (i : Nat)
    (h : rs1[i]? = rs2[i]?) :
    (processRequests rs1)[i]? = (processRequests rs2)[i]? := by
  simp [processRequests, List.getElem?_map, h]

/-- Witness for C10: the same request among different surrounding requests
gets the same response. -/
theorem handler_deterministic_witness :
    (processRequests
      [ ((fun _ _ => .error "net"), (fun _ => none), Json.obj []),
        ((fun _ _ => .error "net"), (fun _ => none), Json.obj [("a", Json.num 1)]) ])[0]? =
    (processRequests
      [ ((fun _ _ => .error "net"), (fun _ => none), Json.obj []),
        ((fun _ _ => .error "net"), (fun _ => none), Json.obj [("b", Json.num 2)]) ])[0]? :=
  handler_deterministic _ _ 0 rfl

end VapiAgent
